import Mathlib

/-!
Shallow embedding of `programs/solana-messaging/src/lib.rs` (an Anchor
program with two instruction handlers, `send_message` and
`receive_message`, one persisted account type `Message`, and three
program errors), together with theorems settling the specification's
claims about it.

Modelling conventions:
* A Solana `Pubkey` (32-byte public identity) is modelled as an opaque
  identity with decidable equality.
* A Rust `String` payload is modelled as its byte sequence `List Nat`;
  `String::len` is the byte length, `String::is_empty` is `length = 0`.
* `i64` timestamps are modelled as `Int` (the claims never exercise
  overflow), `u8` bumps as `Nat`.
* A handler taking `&mut Account<Message>` is modelled as a function from
  the pre-state of the account (plus the instruction inputs the runtime
  supplies: signer key, clock value, derived bump) to the post-state of
  the account paired with the outcome, mirroring the Rust control flow:
  an early `return Err` leaves the account as it was.
* Anchor's `init` constraint on the PDA derived from
  `[b"message", sender, recipient]` is modelled by a ledger (association
  list from seed tuples to records): creating an account at an occupied
  address fails with the runtime error `AccountAlreadyInUse`.
-/

/-- A 32-byte public identity, kept opaque: the claims only need
decidable equality of identities. -/
structure Pubkey where
  id : Nat
deriving DecidableEq, Repr

/-- The three program errors declared in the `#[error_code]` enum. -/
inductive ErrorCode where
  | MessageTooLong
  | EmptyMessage
  | UnauthorizedRecipient
deriving DecidableEq, Repr

/-- The persisted `Message` account: the six fields of the
`#[account] pub struct Message` in the source. -/
structure Message where
  sender : Pubkey
  recipient : Pubkey
  content : List Nat
  timestamp : Int
  nft_mint : Pubkey
  bump : Nat
deriving DecidableEq, Repr

/-- `Message::LEN` from the source: `8 + 32 + 32 + 4 + 500 + 8 + 32 + 1`
(discriminator, sender, recipient, length-prefixed content, timestamp,
nft_mint, bump). -/
def Message.LEN : Nat := 8 + 32 + 32 + (4 + 500) + 8 + 32 + 1

/-- Borsh-serialized size of a concrete record under the persisted
layout: 8-byte discriminator, two 32-byte keys, 4-byte length prefix
followed by the content bytes, 8-byte timestamp, 32-byte mint key,
1-byte bump. -/
def Message.serializedLen (m : Message) : Nat :=
  8 + 32 + 32 + (4 + m.content.length) + 8 + 32 + 1

/-- The zero-initialized account state Anchor's `init` hands to the
handler before any field is assigned. -/
def Message.zeroed : Message :=
  { sender := ⟨0⟩, recipient := ⟨0⟩, content := [], timestamp := 0,
    nft_mint := ⟨0⟩, bump := 0 }

/-- The `send_message` handler body. Inputs, in source order of use: the
pre-state of the `message` account, the signing sender's key, the
`message_content` payload, the `recipient` argument, the host clock's
`unix_timestamp`, the `nft_mint` account's key, and `ctx.bumps.message`
(the canonical bump found while deriving the PDA). Returns the
post-state of the `message` account together with the program error, if
any: `require!(message_content.len() <= 500, MessageTooLong)` then
`require!(!message_content.is_empty(), EmptyMessage)` run before any
field assignment, so on either failure the account is returned
unchanged. -/
def send_message (pre : Message) (senderKey : Pubkey)
    (message_content : List Nat) (recipient : Pubkey)
    (clock_unix_timestamp : Int) (nft_mint_key : Pubkey)
    (bumps_message : Nat) : Message × Option ErrorCode :=
  if ¬ (message_content.length ≤ 500) then
    (pre, some ErrorCode.MessageTooLong)
  else if message_content.isEmpty then
    (pre, some ErrorCode.EmptyMessage)
  else
    ({ sender := senderKey, recipient := recipient,
       content := message_content, timestamp := clock_unix_timestamp,
       nft_mint := nft_mint_key, bump := bumps_message }, none)

/-- The `receive_message` handler body: given the loaded `message`
account and the signing caller's key, `require!(message.recipient ==
recipient.key(), UnauthorizedRecipient)`; the handler performs no writes,
so the account post-state is the pre-state in both outcomes. -/
def receive_message (message : Message) (recipientKey : Pubkey) :
    Message × Except ErrorCode Unit :=
  if ¬ (message.recipient = recipientKey) then
    (message, Except.error ErrorCode.UnauthorizedRecipient)
  else
    (message, Except.ok ())

/-- The seed material of the `message` PDA in `SendMessage`:
`seeds = [b"message", sender.key().as_ref(), recipient.as_ref()]`. -/
structure Seeds where
  tag : List Nat
  sender : Pubkey
  recipient : Pubkey
deriving DecidableEq, Repr

/-- The byte string `b"message"`. -/
def bMessage : List Nat := [109, 101, 115, 115, 97, 103, 101]

/-- The deterministic seed tuple from which the `message` account's
address is derived for a given (sender, recipient) pair. -/
def messageSeeds (senderKey recipient : Pubkey) : Seeds :=
  ⟨bMessage, senderKey, recipient⟩

/-- The set of program-derived accounts on the ledger, as an association
list from seed tuples to stored records. -/
abbrev Ledger : Type := List (Seeds × Message)

/-- Look an address up on the ledger. -/
def ledgerLookup (l : Ledger) (a : Seeds) : Option Message :=
  match l with
  | [] => none
  | (a', m) :: rest => if a' = a then some m else ledgerLookup rest a

/-- Transaction-level outcome: a program error surfaced by the handler,
or the host runtime's failure when `init` targets an already-occupied
address. -/
inductive TxError where
  | Program (e : ErrorCode)
  | AccountAlreadyInUse
deriving DecidableEq, Repr

/-- A `send_message` transaction as the host runs it: Anchor's `init`
constraint first creates the `message` account at the address derived
from `messageSeeds senderKey recipient`, failing if that address is
already occupied; the handler then runs on the zero-initialized account
and, on success, the populated record is persisted at that address. -/
def send_tx (l : Ledger) (senderKey : Pubkey) (message_content : List Nat)
    (recipient : Pubkey) (clock_unix_timestamp : Int)
    (nft_mint_key : Pubkey) (bumps_message : Nat) :
    Except TxError Ledger :=
  if (ledgerLookup l (messageSeeds senderKey recipient)).isSome then
    Except.error TxError.AccountAlreadyInUse
  else
    match send_message Message.zeroed senderKey message_content recipient
        clock_unix_timestamp nft_mint_key bumps_message with
    | (m, none) => Except.ok ((messageSeeds senderKey recipient, m) :: l)
    | (_, some e) => Except.error (TxError.Program e)

/-- C1: for every payload whose byte length is in [1, 500], a
`send_message` transaction on a ledger where the pair's derived address
is free succeeds, and the content stored in the persisted `Message`
record equals the input payload exactly. -/
theorem C1_send_round_trip (l : Ledger) (s r mk : Pubkey) (c : List Nat)
    (ts : Int) (b : Nat)
    (hfree : ledgerLookup l (messageSeeds s r) = none)
    (h1 : 1 ≤ c.length) (h2 : c.length ≤ 500) :
    ∃ l' m, send_tx l s c r ts mk b = Except.ok l' ∧
      ledgerLookup l' (messageSeeds s r) = some m ∧ m.content = c := by
  have hne : c.isEmpty = false := by
    cases c with
    | nil => simp at h1
    | cons a t => rfl
  refine ⟨(messageSeeds s r,
      { sender := s, recipient := r, content := c, timestamp := ts,
        nft_mint := mk, bump := b }) :: l,
    { sender := s, recipient := r, content := c, timestamp := ts,
      nft_mint := mk, bump := b }, ?_, ?_, rfl⟩
  · simp [send_tx, hfree, send_message, h2, hne]
  · simp [ledgerLookup]

/-- C1 witness: a concrete one-byte payload round-trips on the empty
ledger. -/
theorem C1_send_round_trip_witness :
    ∃ l' m,
      send_tx [] ⟨1⟩ [104] ⟨2⟩ 5 ⟨3⟩ 254 = Except.ok l' ∧
      ledgerLookup l' (messageSeeds ⟨1⟩ ⟨2⟩) = some m ∧ m.content = [104] :=
  C1_send_round_trip [] ⟨1⟩ ⟨2⟩ ⟨3⟩ [104] 5 254 (by decide) (by decide)
    (by decide)

/-- C2: for every zero-length payload the `send_message` handler fails
with exactly `EmptyMessage` and leaves the account unchanged. -/
theorem C2_empty_message (pre : Message) (s r mk : Pubkey) (c : List Nat)
    (ts : Int) (b : Nat) (h : c.length = 0) :
    send_message pre s c r ts mk b = (pre, some ErrorCode.EmptyMessage) := by
  have hc : c = [] := List.length_eq_zero.mp h
  subst hc
  simp [send_message]

/-- C2 witness: the empty payload fails with `EmptyMessage` at a concrete
account state. -/
theorem C2_empty_message_witness :
    send_message Message.zeroed ⟨1⟩ [] ⟨2⟩ 0 ⟨3⟩ 0
      = (Message.zeroed, some ErrorCode.EmptyMessage) :=
  C2_empty_message Message.zeroed ⟨1⟩ ⟨2⟩ ⟨3⟩ [] 0 0 (by decide)

/-- C3: every payload longer than 500 bytes fails with `MessageTooLong`,
and no payload of length at most 500 ever produces `MessageTooLong`. -/
theorem C3_message_too_long (pre : Message) (s r mk : Pubkey)
    (c : List Nat) (ts : Int) (b : Nat) :
    (500 < c.length →
      send_message pre s c r ts mk b = (pre, some ErrorCode.MessageTooLong)) ∧
    (c.length ≤ 500 →
      (send_message pre s c r ts mk b).snd ≠ some ErrorCode.MessageTooLong) := by
  constructor
  · intro hlong
    have : ¬ (c.length ≤ 500) := by omega
    simp [send_message, this]
  · intro hok
    unfold send_message
    rw [if_neg (not_not_intro hok)]
    split <;> simp

/-- C3 witness: a 501-byte payload fails with `MessageTooLong`, and a
500-byte payload passes the length check. -/
theorem C3_message_too_long_witness :
    send_message Message.zeroed ⟨1⟩ (List.replicate 501 0) ⟨2⟩ 0 ⟨3⟩ 0
      = (Message.zeroed, some ErrorCode.MessageTooLong) ∧
    (send_message Message.zeroed ⟨1⟩ (List.replicate 500 0) ⟨2⟩ 0 ⟨3⟩ 0).snd
      ≠ some ErrorCode.MessageTooLong :=
  ⟨(C3_message_too_long Message.zeroed ⟨1⟩ ⟨2⟩ ⟨3⟩ (List.replicate 501 0)
      0 0).1 (by rw [List.length_replicate]; omega),
   (C3_message_too_long Message.zeroed ⟨1⟩ ⟨2⟩ ⟨3⟩ (List.replicate 500 0)
      0 0).2 (by rw [List.length_replicate])⟩

/-- C4: `receive_message` succeeds exactly when the calling identity
equals the record's stored recipient, and any other caller fails with
`UnauthorizedRecipient`. -/
theorem C4_receive_authorization (m : Message) (k : Pubkey) :
    ((receive_message m k).snd = Except.ok () ↔ m.recipient = k) ∧
    (m.recipient ≠ k →
      (receive_message m k).snd
        = Except.error ErrorCode.UnauthorizedRecipient) := by
  constructor
  · by_cases h : m.recipient = k <;> simp [receive_message, h]
  · intro h
    simp [receive_message, h]

/-- C4 witness: the stored recipient succeeds, a different identity
fails with `UnauthorizedRecipient`, at a concrete record. -/
theorem C4_receive_authorization_witness :
    (receive_message
      { sender := ⟨1⟩, recipient := ⟨2⟩, content := [104], timestamp := 5,
        nft_mint := ⟨3⟩, bump := 254 } ⟨2⟩).snd = Except.ok () ∧
    (receive_message
      { sender := ⟨1⟩, recipient := ⟨2⟩, content := [104], timestamp := 5,
        nft_mint := ⟨3⟩, bump := 254 } ⟨9⟩).snd
      = Except.error ErrorCode.UnauthorizedRecipient :=
  ⟨(C4_receive_authorization
      { sender := ⟨1⟩, recipient := ⟨2⟩, content := [104], timestamp := 5,
        nft_mint := ⟨3⟩, bump := 254 } ⟨2⟩).1.mpr rfl,
   (C4_receive_authorization
      { sender := ⟨1⟩, recipient := ⟨2⟩, content := [104], timestamp := 5,
        nft_mint := ⟨3⟩, bump := 254 } ⟨9⟩).2 (by decide)⟩

/-- C5: `receive_message` never mutates the record: all six fields of
the account's post-state equal the pre-state, for every caller, whether
the call succeeds or fails. -/
theorem C5_receive_no_mutation (m : Message) (k : Pubkey) :
    (receive_message m k).fst.sender = m.sender ∧
    (receive_message m k).fst.recipient = m.recipient ∧
    (receive_message m k).fst.content = m.content ∧
    (receive_message m k).fst.timestamp = m.timestamp ∧
    (receive_message m k).fst.nft_mint = m.nft_mint ∧
    (receive_message m k).fst.bump = m.bump := by
  by_cases h : m.recipient = k <;> simp [receive_message, h]

/-- C6: on every successful `send_message`, all six record fields are
populated: sender from the signing caller's key, recipient from the
argument, content from the payload, timestamp from the host clock,
nft_mint from the passed mint account's key, bump from the derived
canonicalization nonce. -/
theorem C6_fields_populated (pre : Message) (s r mk : Pubkey)
    (c : List Nat) (ts : Int) (b : Nat) (m : Message)
    (h : send_message pre s c r ts mk b = (m, none)) :
    m.sender = s ∧ m.recipient = r ∧ m.content = c ∧
    m.timestamp = ts ∧ m.nft_mint = mk ∧ m.bump = b := by
  unfold send_message at h
  split at h
  · simp at h
  · split at h
    · simp at h
    · injection h with h1 h2
      subst h1
      exact ⟨rfl, rfl, rfl, rfl, rfl, rfl⟩

/-- C6 witness: a concrete successful send populates all six fields
from its inputs. -/
theorem C6_fields_populated_witness :
    ({ sender := ⟨1⟩, recipient := ⟨2⟩, content := [104, 105],
       timestamp := 42, nft_mint := ⟨3⟩, bump := 7 } : Message).sender = ⟨1⟩ ∧
    ({ sender := ⟨1⟩, recipient := ⟨2⟩, content := [104, 105],
       timestamp := 42, nft_mint := ⟨3⟩, bump := 7 } : Message).recipient = ⟨2⟩ ∧
    ({ sender := ⟨1⟩, recipient := ⟨2⟩, content := [104, 105],
       timestamp := 42, nft_mint := ⟨3⟩, bump := 7 } : Message).content = [104, 105] ∧
    ({ sender := ⟨1⟩, recipient := ⟨2⟩, content := [104, 105],
       timestamp := 42, nft_mint := ⟨3⟩, bump := 7 } : Message).timestamp = 42 ∧
    ({ sender := ⟨1⟩, recipient := ⟨2⟩, content := [104, 105],
       timestamp := 42, nft_mint := ⟨3⟩, bump := 7 } : Message).nft_mint = ⟨3⟩ ∧
    ({ sender := ⟨1⟩, recipient := ⟨2⟩, content := [104, 105],
       timestamp := 42, nft_mint := ⟨3⟩, bump := 7 } : Message).bump = 7 :=
  C6_fields_populated Message.zeroed ⟨1⟩ ⟨2⟩ ⟨3⟩ [104, 105] 42 7
    { sender := ⟨1⟩, recipient := ⟨2⟩, content := [104, 105],
      timestamp := 42, nft_mint := ⟨3⟩, bump := 7 } (by decide)

/-- C7: the allocated size `Message::LEN` is the fixed constant
`8 + 32 + 32 + (4 + 500) + 8 + 32 + 1 = 617` bytes, independent of the
content actually stored. -/
theorem C7_record_len :
    Message.LEN = 8 + 32 + 32 + (4 + 500) + 8 + 32 + 1 ∧
    Message.LEN = 617 :=
  ⟨rfl, rfl⟩

/-- C8: when `send_message` fails (with `MessageTooLong` or
`EmptyMessage`), the account post-state equals the pre-state: both
validation checks run before any field assignment. -/
theorem C8_atomic_on_validation_failure (pre : Message) (s r mk : Pubkey)
    (c : List Nat) (ts : Int) (b : Nat) (e : ErrorCode)
    (h : (send_message pre s c r ts mk b).snd = some e) :
    (send_message pre s c r ts mk b).fst = pre := by
  by_cases h1 : c.length ≤ 500
  · by_cases h2 : c.isEmpty
    · simp [send_message, h1, h2]
    · exfalso
      simp [send_message, h1, h2] at h
  · simp [send_message, h1]

/-- C8 witness: at a concrete failing input (empty payload) the account
is unchanged. -/
theorem C8_atomic_on_validation_failure_witness :
    (send_message Message.zeroed ⟨1⟩ [] ⟨2⟩ 0 ⟨3⟩ 0).fst = Message.zeroed :=
  C8_atomic_on_validation_failure Message.zeroed ⟨1⟩ ⟨2⟩ ⟨3⟩ [] 0 0
    ErrorCode.EmptyMessage (by decide)

/-- C9: after a successful `send_message` transaction for a
(sender, recipient) pair, any second transaction for the identical pair
fails at account-creation time, because the record's address derived
from `[b"message", sender, recipient]` is already occupied. -/
theorem C9_at_most_one_per_pair (l l' : Ledger) (s r mk mk2 : Pubkey)
    (c c2 : List Nat) (ts ts2 : Int) (b b2 : Nat)
    (h : send_tx l s c r ts mk b = Except.ok l') :
    send_tx l' s c2 r ts2 mk2 b2
      = Except.error TxError.AccountAlreadyInUse := by
  unfold send_tx at h ⊢
  by_cases hocc : (ledgerLookup l (messageSeeds s r)).isSome
  · simp [hocc] at h
  · rw [if_neg hocc] at h
    cases hsm : send_message Message.zeroed s c r ts mk b with
    | mk m oe =>
      rw [hsm] at h
      cases oe with
      | none =>
        injection h with h1
        subst h1
        rw [if_pos (by simp [ledgerLookup])]
      | some e => simp at h

/-- C9 witness: a concrete second send for the same pair fails with
`AccountAlreadyInUse` on the ledger produced by the first. -/
theorem C9_at_most_one_per_pair_witness :
    send_tx [(messageSeeds ⟨1⟩ ⟨2⟩,
      { sender := ⟨1⟩, recipient := ⟨2⟩, content := [104], timestamp := 5,
        nft_mint := ⟨3⟩, bump := 254 })] ⟨1⟩ [106] ⟨2⟩ 6 ⟨4⟩ 254
      = Except.error TxError.AccountAlreadyInUse :=
  C9_at_most_one_per_pair [] _ ⟨1⟩ ⟨2⟩ ⟨3⟩ ⟨4⟩ [104] [106] 5 6 254 254
    rfl

/-- C10: every content accepted by the validation fits in the allocated
storage: for content of at most 500 bytes the serialized record size is
at most `Message::LEN`. -/
theorem C10_accepted_content_fits (m : Message)
    (h : m.content.length ≤ 500) :
    Message.serializedLen m ≤ Message.LEN := by
  unfold Message.serializedLen Message.LEN
  omega

/-- C10 witness: a concrete in-bounds record's serialized size fits in
the allocation. -/
theorem C10_accepted_content_fits_witness :
    Message.serializedLen
      { sender := ⟨1⟩, recipient := ⟨2⟩, content := [104], timestamp := 5,
        nft_mint := ⟨3⟩, bump := 254 } ≤ Message.LEN :=
  C10_accepted_content_fits
    { sender := ⟨1⟩, recipient := ⟨2⟩, content := [104], timestamp := 5,
      nft_mint := ⟨3⟩, bump := 254 } (by decide)
